import Mathlib

/-!
Verification of the bucket-oriented persistence layer in
src/storage/src/vespa/storage/persistence/persistencethread.cpp.

Each handler of the persistence thread is embedded as a pure function: the
service-layer bucket database is an explicit keyed map, the storage engine
(the persistence provider) is an oracle supplying the results its calls would
return, and every engine call the handler issues is recorded in a trace in
issue order.  Components of the repository that the handlers use but whose
code is not part of this tree (the test-and-set helper, the message tracker
reply machinery, the bucket id comparison operators) are modelled from the
specification and marked as such in their doc comments.
-/

namespace VespaPersistence

/-- Bucket identifier: a used-bits count together with the raw location bits
(the two components of a document::BucketId). -/
structure BucketId where
  usedBits : Nat
  rawId : Nat
deriving DecidableEq

/-- Bucket metadata as carried by api::BucketInfo: checksum, document count,
total document size, meta entry count, ready and active flags, and a
last-modified timestamp. -/
structure BucketInfo where
  checksum : Nat
  docCount : Nat
  totDocSize : Nat
  metaCount : Nat
  ready : Bool
  active : Bool
  lastModified : Nat
deriving DecidableEq

/-- The all-zero bucket info that a freshly created bucket database entry
starts with. -/
def BucketInfo.zero : BucketInfo :=
  ⟨0, 0, 0, 0, false, false, 0⟩

/-- From bucketStatesAreSemanticallyEqual in persistencethread.cpp: only the
checksum and the document count are compared; document sizes may drift due to
background document moving and are not part of the comparison. -/
def bucketStatesAreSemanticallyEqual (a b : BucketInfo) : Bool :=
  decide (a.checksum = b.checksum) && decide (a.docCount = b.docCount)

/-- Modelled from the spec: api::BucketInfo has a query for an empty bucket
(its code is not under src); the spec only says an empty provider bucket means
the bucket has already been deleted by a racing split or join, so emptiness is
modelled as all content counters being zero. -/
def BucketInfo.emptyInfo (i : BucketInfo) : Bool :=
  decide (i.metaCount = 0) && decide (i.docCount = 0) && decide (i.checksum = 0)

/-- One service-layer bucket database slot: the bucket metadata plus the disk
index recorded for the bucket. -/
structure Entry where
  info : BucketInfo
  disk : Nat
deriving DecidableEq

/-- The service-layer bucket metadata index, as a keyed map from bucket id to
entry. -/
abbrev Db := BucketId → Option Entry

/-- Writing an entry through a database guard. -/
def dbWrite (db : Db) (b : BucketId) (e : Entry) : Db :=
  fun x => if x = b then some e else db x

/-- Removing an entry through a database guard. -/
def dbRemove (db : Db) (b : BucketId) : Db :=
  fun x => if x = b then none else db x

theorem dbWrite_self (db : Db) (b : BucketId) (e : Entry) :
    dbWrite db b e b = some e := by
  simp [dbWrite]

theorem dbWrite_ne (db : Db) (b : BucketId) (e : Entry) (x : BucketId) (h : x ≠ b) :
    dbWrite db b e x = db x := by
  simp [dbWrite, h]

theorem dbRemove_self (db : Db) (b : BucketId) :
    dbRemove db b b = none := by
  simp [dbRemove]

theorem dbRemove_ne (db : Db) (b : BucketId) (x : BucketId) (h : x ≠ b) :
    dbRemove db b x = db x := by
  simp [dbRemove, h]

/-- Reply return codes relevant to the modelled handlers.  Engine error codes
and exception payloads are carried as opaque numbers. -/
inductive ReturnCode where
  | ok
  | illegalParameters
  | internalFailure (what : Nat)
  | testAndSetConditionFailed
  | engineError (code : Nat)
deriving DecidableEq

/-- Calls issued to the persistence provider (the storage engine), recorded in
issue order. -/
inductive SpiCall where
  | getBucketInfo (b : BucketId)
  | deleteBucket (b : BucketId)
  | createBucket (b : BucketId)
  | setActiveState (b : BucketId) (active : Bool)
  | split (source t1 t2 : BucketId)
  | join (s1 s2 dest : BucketId)
  | removeEntry (b : BucketId) (timestamp : Nat)
  | tasFetch (b : BucketId)
  | put (b : BucketId) (timestamp : Nat)
  | removeIfFound (b : BucketId) (timestamp : Nat)
  | update (b : BucketId) (timestamp : Nat)
deriving DecidableEq

/-! ## DeleteBucket (claim C1) -/

/-- The DeleteBucket command: the bucket to delete and the bucket info the
sender cached for it, which the handler checks against the provider. -/
structure DeleteBucketCmd where
  bucket : BucketId
  info : BucketInfo
deriving DecidableEq

/-- Environment of handleDeleteBucket: the bucket database, whether the bucket
is currently merging, and the provider response to the getBucketInfo query
(an error or the info the engine reports). -/
structure DeleteEnv where
  db : Db
  isMerging : Bool
  providerInfo : Except Nat BucketInfo

/-- Outcome of handleDeleteBucket.  The refused flag marks the early return
taken when the provider info check fails; modelled from the spec, this is the
consistency-guard refusal of the delete (the message tracker that turns
handler outcomes into replies is not under src). -/
structure DeleteOut where
  db : Db
  calls : List SpiCall
  clearedMerge : Bool
  refused : Bool

/-- From checkProviderBucketInfoMatches in persistencethread.cpp: a provider
error fails the check; otherwise the check passes when the cached info and the
provider info are semantically equal or the provider bucket is empty. -/
def checkProviderBucketInfoMatches (providerInfo : Except Nat BucketInfo)
    (info : BucketInfo) : Bool :=
  match providerInfo with
  | .error _ => false
  | .ok p => bucketStatesAreSemanticallyEqual info p || p.emptyInfo

/-- From handleDeleteBucket in persistencethread.cpp.  Merge status is cleared
when the bucket was merging; the provider info check guards the engine delete;
after a successful delete, an entry that still shows a positive meta count is
not removed but reset to zero counters, retaining only the ready and active
flags (the three-argument info constructor zeroes every counter). -/
def handleDeleteBucket (env : DeleteEnv) (cmd : DeleteBucketCmd) : DeleteOut :=
  let cleared := env.isMerging
  let calls0 := [SpiCall.getBucketInfo cmd.bucket]
  if !checkProviderBucketInfoMatches env.providerInfo cmd.info then
    { db := env.db, calls := calls0, clearedMerge := cleared, refused := true }
  else
    let calls := calls0 ++ [SpiCall.deleteBucket cmd.bucket]
    let db2 :=
      match env.db cmd.bucket with
      | some e =>
        if 0 < e.info.metaCount then
          dbWrite env.db cmd.bucket
            { e with info := { checksum := 0, docCount := 0, totDocSize := 0, metaCount := 0,
                               ready := e.info.ready, active := e.info.active,
                               lastModified := 0 } }
        else env.db
      | none => env.db
    { db := db2, calls := calls, clearedMerge := cleared, refused := false }

/-! ## Test-and-set gate and the conditional mutations (claim C2) -/

/-- Result of fetching the current document while evaluating a test-and-set
precondition: an engine error, no document, or a document on which the
selection either matches or does not. -/
inductive FetchResult where
  | fetchError (code : Nat)
  | notFound
  | found (conditionMatches : Bool)
deriving DecidableEq

/-- Modelled from the spec: TestAndSetHelper.retrieveAndMatch is not under
src.  Per the spec, a missing document proceeds exactly when the
missing-implies-match flag is set and otherwise fails with
precondition-not-met; a present document proceeds exactly when the selection
matches; an engine error while fetching is reported with the engine code. -/
def retrieveAndMatch (fetch : FetchResult) (missingDocumentImpliesMatch : Bool) : ReturnCode :=
  match fetch with
  | .fetchError c => .engineError c
  | .notFound => if missingDocumentImpliesMatch then .ok else .testAndSetConditionFailed
  | .found m => if m then .ok else .testAndSetConditionFailed

/-- From tasConditionMatches in persistencethread.cpp: a non-ok code from the
helper fails the tracker with that code and blocks the mutation.  Returns the
failure code when the mutation is blocked, and none when it may proceed. -/
def tasConditionMatches (fetch : FetchResult) (missingDocumentImpliesMatch : Bool) :
    Option ReturnCode :=
  match retrieveAndMatch fetch missingDocumentImpliesMatch with
  | .ok => none
  | code => some code

/-- The fields of a put, remove or update command the handlers inspect: the
declared bucket, the operation timestamp, whether a test-and-set condition is
present, and whether the recomputed document bucket matches the declared one
(getBucket throws when it does not). -/
structure MutCmd where
  bucket : BucketId
  timestamp : Nat
  hasCondition : Bool
  docBucketValid : Bool
deriving DecidableEq

/-- Outcome of a CRUD mutation handler: the engine calls issued, the tracker
result code, whether getBucket threw, and the reply payloads (the remove reply
timestamp, the update reply old timestamp). -/
structure MutOut where
  calls : List SpiCall
  result : ReturnCode
  threw : Bool
  replyTimestamp : Option Nat
  oldTimestamp : Option Nat
deriving DecidableEq

/-- Modelled from the spec: MessageTracker.checkForError is not under src; per
the spec an engine error is propagated verbatim as the reply result code. -/
def checkForErrorCode {α : Type} : Except Nat α → ReturnCode
  | .ok _ => .ok
  | .error c => .engineError c

/-- The unconditional tail of handlePut: resolve the bucket (throwing on a
mismatch) and issue the engine put, synchronous path. -/
def putCore (cmd : MutCmd) (putResult : Except Nat Unit) (pre : List SpiCall) : MutOut :=
  if cmd.docBucketValid then
    { calls := pre ++ [SpiCall.put cmd.bucket cmd.timestamp],
      result := checkForErrorCode putResult, threw := false,
      replyTimestamp := none, oldTimestamp := none }
  else
    { calls := pre, result := .ok, threw := true, replyTimestamp := none, oldTimestamp := none }

/-- From handlePut in persistencethread.cpp, synchronous path: when a
condition is present the test-and-set gate runs first, with
missing-implies-match false, and only a passing gate reaches the engine. -/
def handlePut (cmd : MutCmd) (fetch : FetchResult) (putResult : Except Nat Unit) : MutOut :=
  if cmd.hasCondition then
    match tasConditionMatches fetch false with
    | some code =>
      { calls := [SpiCall.tasFetch cmd.bucket], result := code, threw := false,
        replyTimestamp := none, oldTimestamp := none }
    | none => putCore cmd putResult [SpiCall.tasFetch cmd.bucket]
  else putCore cmd putResult []

/-- The unconditional tail of handleRemove: resolve the bucket and issue the
engine removeIfFound; a successful result replies with the command timestamp
when the document was found and with timestamp zero otherwise. -/
def removeCore (cmd : MutCmd) (removeResult : Except Nat Bool) (pre : List SpiCall) : MutOut :=
  if cmd.docBucketValid then
    match removeResult with
    | .error c =>
      { calls := pre ++ [SpiCall.removeIfFound cmd.bucket cmd.timestamp],
        result := .engineError c, threw := false, replyTimestamp := none, oldTimestamp := none }
    | .ok wasFound =>
      { calls := pre ++ [SpiCall.removeIfFound cmd.bucket cmd.timestamp],
        result := .ok, threw := false,
        replyTimestamp := some (if wasFound then cmd.timestamp else 0), oldTimestamp := none }
  else
    { calls := pre, result := .ok, threw := true, replyTimestamp := none, oldTimestamp := none }

/-- From handleRemove in persistencethread.cpp, synchronous path: same gate as
put, with missing-implies-match false. -/
def handleRemove (cmd : MutCmd) (fetch : FetchResult) (removeResult : Except Nat Bool) : MutOut :=
  if cmd.hasCondition then
    match tasConditionMatches fetch false with
    | some code =>
      { calls := [SpiCall.tasFetch cmd.bucket], result := code, threw := false,
        replyTimestamp := none, oldTimestamp := none }
    | none => removeCore cmd removeResult [SpiCall.tasFetch cmd.bucket]
  else removeCore cmd removeResult []

/-- The unconditional tail of handleUpdate: resolve the bucket and issue the
engine update; a successful result replies with the existing timestamp the
engine reports. -/
def updateCore (cmd : MutCmd) (updateResult : Except Nat Nat) (pre : List SpiCall) : MutOut :=
  if cmd.docBucketValid then
    match updateResult with
    | .error c =>
      { calls := pre ++ [SpiCall.update cmd.bucket cmd.timestamp],
        result := .engineError c, threw := false, replyTimestamp := none, oldTimestamp := none }
    | .ok oldTs =>
      { calls := pre ++ [SpiCall.update cmd.bucket cmd.timestamp],
        result := .ok, threw := false, replyTimestamp := none, oldTimestamp := some oldTs }
  else
    { calls := pre, result := .ok, threw := true, replyTimestamp := none, oldTimestamp := none }

/-- From handleUpdate in persistencethread.cpp, synchronous path: the
test-and-set gate runs first and receives the create-if-non-existent flag of
the update payload as its missing-implies-match flag. -/
def handleUpdate (cmd : MutCmd) (createIfNonExistent : Bool) (fetch : FetchResult)
    (updateResult : Except Nat Nat) : MutOut :=
  if cmd.hasCondition then
    match tasConditionMatches fetch createIfNonExistent with
    | some code =>
      { calls := [SpiCall.tasFetch cmd.bucket], result := code, threw := false,
        replyTimestamp := none, oldTimestamp := none }
    | none => updateCore cmd updateResult [SpiCall.tasFetch cmd.bucket]
  else updateCore cmd updateResult []

/-! ## JoinBuckets (claims C3 and C6) -/

/-- Modelled from the spec: bucket containment (document::BucketId is not
under src).  Per the spec, bucket A contains bucket B iff the used-bits count
of B is at least that of A and the id of B, masked to the used bits of A,
equals the id of A. -/
def bucketContains (a b : BucketId) : Bool :=
  decide (a.usedBits ≤ b.usedBits) &&
    decide (b.rawId % 2 ^ a.usedBits = a.rawId % 2 ^ a.usedBits)

/-- Modelled from the spec: the bucket id ordering used to sort the join
sources (the comparison operator of document::BucketId is not under src).
Per the spec, ascending bucket id order is lowest used-bits first, then
lowest location. -/
def bucketIdLess (a b : BucketId) : Bool :=
  decide (a.usedBits < b.usedBits) ||
    (decide (a.usedBits = b.usedBits) && decide (a.rawId < b.rawId))

/-- The JoinBuckets command: the destination bucket and the source buckets as
sent (the handler sorts them in place). -/
structure JoinCmd where
  bucket : BucketId
  sourceBuckets : List BucketId
deriving DecidableEq

/-- Environment of handleJoinBuckets: the bucket database, the partition of
this thread, the per-bucket disk returned by lockAndGetDisk, and the result
the engine join call would return. -/
structure JoinEnv where
  db : Db
  partition : Nat
  lockDisk : BucketId → Nat
  joinResult : Except Nat Unit

/-- Outcome of handleJoinBuckets: the database, the engine calls issued, the
queue remap redirections performed (source bucket to destination), and the
tracker result code. -/
structure JoinOut where
  db : Db
  calls : List SpiCall
  remaps : List (BucketId × BucketId)
  result : ReturnCode

/-- From validateJoinCommand in persistencethread.cpp: exactly two source
buckets, none equal to the destination, each contained in the destination;
violations fail with illegal parameters. -/
def validateJoinCommand (cmd : JoinCmd) : Bool :=
  decide (cmd.sourceBuckets.length = 2) &&
    cmd.sourceBuckets.all
      (fun s => !decide (s = cmd.bucket) && bucketContains cmd.bucket s)

/-- From handleJoinBuckets in persistencethread.cpp.  After validation the two
sources are sorted into ascending order; the destination entry is created or
fetched and its disk set to the partition before the engine call; the engine
join is then issued, and an engine error returns at that point.  On success,
each source in sorted order has its queued operations remapped to the
destination and its entry removed while the largest last-modified timestamp
seen is tracked; finally the destination entry receives that timestamp when
its own last-modified is still zero.  A self join (both sources equal)
acquires only the first lock; the unset second lock carries disk zero. -/
def handleJoinBuckets (env : JoinEnv) (cmd : JoinCmd) : JoinOut :=
  if !validateJoinCommand cmd then
    { db := env.db, calls := [], remaps := [], result := .illegalParameters }
  else
    match cmd.sourceBuckets with
    | [a, b] =>
      let fs := if bucketIdLess b a then (b, a) else (a, b)
      let first := fs.1
      let second := fs.2
      let destEntry : Entry :=
        { info := (match env.db cmd.bucket with
                   | some e => e.info
                   | none => BucketInfo.zero),
          disk := env.partition }
      let db1 := dbWrite env.db cmd.bucket destEntry
      let calls := [SpiCall.join first second cmd.bucket]
      match env.joinResult with
      | .error c =>
        { db := db1, calls := calls, remaps := [], result := .engineError c }
      | .ok _ =>
        let step1 :=
          match db1 first with
          | some e => (dbRemove db1 first, Nat.max 0 e.info.lastModified)
          | none => (db1, 0)
        let step2 :=
          match step1.1 second with
          | some e => (dbRemove step1.1 second, Nat.max step1.2 e.info.lastModified)
          | none => (step1.1, step1.2)
        let destE : Entry :=
          match step2.1 cmd.bucket with
          | some e => e
          | none => { info := BucketInfo.zero, disk := 0 }
        let destE2 :=
          if destE.info.lastModified = 0 then
            { destE with
              info := { destE.info with
                        lastModified := Nat.max step2.2 destE.info.lastModified } }
          else destE
        { db := dbWrite step2.1 cmd.bucket destE2, calls := calls,
          remaps := [(first, cmd.bucket), (second, cmd.bucket)], result := .ok }
    | _ =>
      { db := env.db, calls := [], remaps := [], result := .illegalParameters }

/-! ## SplitBucket (claims C4 and C5) -/

/-- The SplitBucket command: the source bucket, the requested maximum split
bits and the index of the distributor that issued the split. -/
structure SplitCmd where
  bucket : BucketId
  maxSplitBits : Nat
  sourceIndex : Nat
deriving DecidableEq

/-- Result of the split bit detector probe (splitbitdetector.cpp is an
external collaborator here, treated as an oracle): no result, a failure with
an opaque reason, or the two target buckets. -/
inductive DetectResult where
  | empty
  | failedResult (reason : Nat)
  | okResult (t1 t2 : BucketId)
deriving DecidableEq

/-- Environment of handleSplitBucket: the bucket database, the partition, the
multibit-split configuration flag, the detector oracle, the per-bucket disk
from lockAndGetDisk, the engine split result, the fresh bucket info queried
per target and disk, whether the queue remap found operations for a bucket,
and the distributor ownership oracle. -/
structure SplitEnv where
  db : Db
  partition : Nat
  enableMultibitSplitOptimalization : Bool
  detectSplit : DetectResult
  lockDisk : BucketId → Nat
  splitResult : Except Nat Unit
  getBucketInfo : BucketId → Nat → BucketInfo
  foundInQueue : BucketId → Bool
  distributorOwns : Nat → BucketId → Bool

/-- Outcome of handleSplitBucket: the database, the engine calls issued, the
ownership notifications emitted (bucket and the info carried), the reply split
info entries, and the tracker result code. -/
structure SplitOut where
  db : Db
  calls : List SpiCall
  notifications : List (BucketId × BucketInfo)
  splitInfo : List (BucketId × BucketInfo)
  result : ReturnCode

/-- Target selection of handleSplitBucket: the detector runs only when the
multibit optimization is enabled; an empty detector result, or the
optimization being disabled, falls back to the canonical binary split into the
two children at used-bits plus one, with the extra bit clear and set; a
detector failure is an internal failure. -/
def splitTargets (env : SplitEnv) (cmd : SplitCmd) : Except Nat (BucketId × BucketId) :=
  let detected :=
    if env.enableMultibitSplitOptimalization then env.detectSplit else .empty
  match detected with
  | .empty =>
    .ok (⟨cmd.bucket.usedBits + 1, cmd.bucket.rawId⟩,
         ⟨cmd.bucket.usedBits + 1, cmd.bucket.rawId ||| (1 <<< cmd.bucket.usedBits)⟩)
  | .failedResult r => .error r
  | .okResult t1 t2 => .ok (t1, t2)

/-- Accumulator for the per-target finishing loop of handleSplitBucket. -/
structure SplitAcc where
  db : Db
  calls : List SpiCall
  notifications : List (BucketId × BucketInfo)
  splitInfo : List (BucketId × BucketInfo)

/-- One iteration of the target finishing loop of handleSplitBucket: when the
source ownership changed, a notification carrying the target info as freshly
queried is emitted; a target with queued operations or a positive meta count
is written (a zero meta count is first faked to one and the bucket re-created
in the engine, since the provider has implicitly erased an empty target);
otherwise the target entry is removed. -/
def splitFinishTarget (ownershipChanged : Bool) (fq : Bool) (t : BucketId) (e : Entry)
    (acc : SplitAcc) : SplitAcc :=
  let notes :=
    if ownershipChanged then acc.notifications ++ [(t, e.info)] else acc.notifications
  if fq || decide (0 < e.info.metaCount) then
    if e.info.metaCount = 0 then
      let e2 := { e with info := { e.info with metaCount := 1 } }
      { db := dbWrite acc.db t e2, calls := acc.calls ++ [SpiCall.createBucket t],
        notifications := notes, splitInfo := acc.splitInfo ++ [(t, e2.info)] }
    else
      { db := dbWrite acc.db t e, calls := acc.calls,
        notifications := notes, splitInfo := acc.splitInfo ++ [(t, e.info)] }
  else
    { db := dbRemove acc.db t, calls := acc.calls,
      notifications := notes, splitInfo := acc.splitInfo }

/-- From handleSplitBucket in persistencethread.cpp.  A source already at 58
used bits, or a maximum split bits not above the current used bits, fails with
illegal parameters before any engine call; a detector failure is an internal
failure.  The engine split is issued against the two targets under their
locks; an engine error returns with no database mutation.  On success each
target entry is created or fetched and filled with freshly queried info, the
queue is remapped, one ownership check is made for the source bucket against
the issuing distributor, the targets are finished per splitFinishTarget, and
the source entry, when present, is notified under the same check and removed. -/
def handleSplitBucket (env : SplitEnv) (cmd : SplitCmd) : SplitOut :=
  if 58 ≤ cmd.bucket.usedBits then
    { db := env.db, calls := [], notifications := [], splitInfo := [],
      result := .illegalParameters }
  else if cmd.maxSplitBits ≤ cmd.bucket.usedBits then
    { db := env.db, calls := [], notifications := [], splitInfo := [],
      result := .illegalParameters }
  else
    match splitTargets env cmd with
    | .error r =>
      { db := env.db, calls := [], notifications := [], splitInfo := [],
        result := .internalFailure r }
    | .ok (t1, t2) =>
      let d1 := env.lockDisk t1
      let d2 := env.lockDisk t2
      match env.splitResult with
      | .error c =>
        { db := env.db, calls := [SpiCall.split cmd.bucket t1 t2],
          notifications := [], splitInfo := [], result := .engineError c }
      | .ok _ =>
        let sourceEntry := env.db cmd.bucket
        let e1 : Entry := { info := env.getBucketInfo t1 d1, disk := d1 }
        let e2 : Entry := { info := env.getBucketInfo t2 d2, disk := d2 }
        let ownershipChanged := !env.distributorOwns cmd.sourceIndex cmd.bucket
        let acc0 : SplitAcc :=
          { db := env.db, calls := [SpiCall.split cmd.bucket t1 t2],
            notifications := [], splitInfo := [] }
        let acc1 := splitFinishTarget ownershipChanged (env.foundInQueue t1) t1 e1 acc0
        let acc2 := splitFinishTarget ownershipChanged (env.foundInQueue t2) t2 e2 acc1
        let final :=
          match sourceEntry with
          | some se =>
            { acc2 with
              db := dbRemove acc2.db cmd.bucket,
              notifications :=
                if ownershipChanged then acc2.notifications ++ [(cmd.bucket, se.info)]
                else acc2.notifications }
          | none => acc2
        { db := final.db, calls := final.calls, notifications := final.notifications,
          splitInfo := final.splitInfo, result := .ok }

/-! ## CreateBucket (claim C7) -/

/-- The CreateBucket command: the bucket and whether it is to be created
active. -/
structure CreateBucketCmd where
  bucket : BucketId
  active : Bool
deriving DecidableEq

/-- Environment of handleCreateBucket: the results the engine would return for
the create and the activation calls.  The handler discards both. -/
structure CreateEnv where
  isMerging : Bool
  createResult : Except Nat Unit
  activateResult : Except Nat Unit

/-- Outcome of handleCreateBucket: the engine calls issued and the tracker
result code. -/
structure CreateOut where
  calls : List SpiCall
  result : ReturnCode
deriving DecidableEq

/-- From handleCreateBucket in persistencethread.cpp: the engine create call
is always issued, an activation call follows exactly when the command marks
the bucket active, and the results of both calls are discarded, so the tracker
result is never failed.  Modelled from the spec for the reply surface: the
message tracker, not under src, replies success when no failure was
recorded. -/
def handleCreateBucket (env : CreateEnv) (cmd : CreateBucketCmd) : CreateOut :=
  let _ := env.createResult
  let _ := env.activateResult
  let calls :=
    [SpiCall.createBucket cmd.bucket] ++
      (if cmd.active then [SpiCall.setActiveState cmd.bucket true] else [])
  { calls := calls, result := .ok }

/-! ## RecheckBucketInfo (claim C8) -/

/-- Environment of handleRecheckBucketInfo: the bucket database and the fresh
bucket info the engine query returns for the bucket. -/
structure RecheckEnv where
  db : Db
  freshInfo : BucketInfo

/-- Outcome of handleRecheckBucketInfo: the database, the notifications
emitted, whether the entry was written, and the tracker result code. -/
structure RecheckOut where
  db : Db
  notifications : List (BucketId × BucketInfo)
  wrote : Bool
  result : ReturnCode

/-- From handleRecheckBucketInfo in persistencethread.cpp: the fresh provider
info overwrites the entry, and a notification is emitted, only when the entry
exists and the fresh info differs from the cached one; a missing entry is a
benign race with a concurrent delete and is a no-op; the handler never records
a failure. -/
def handleRecheckBucketInfo (env : RecheckEnv) (b : BucketId) : RecheckOut :=
  match env.db b with
  | some e =>
    if e.info = env.freshInfo then
      { db := env.db, notifications := [], wrote := false, result := .ok }
    else
      { db := dbWrite env.db b { e with info := env.freshInfo },
        notifications := [(b, env.freshInfo)], wrote := true, result := .ok }
  | none =>
    { db := env.db, notifications := [], wrote := false, result := .ok }

/-! ## Message dispatch boundary (claim C9) -/

/-- Behavior of the routed handler for one dequeued message: it either
completes (commands hand back the tracker or not), or raises an exception
carrying an opaque payload. -/
inductive HandlerRun where
  | completes (returnsTracker : Bool)
  | throws (what : Nat)
deriving DecidableEq

/-- Outcome of processMessage: failure replies sent directly at the dispatch
boundary through the filestor handler reply channel (the channel the trackers
use), and whether a tracker remains for the ordinary reply path. -/
structure ProcessOut where
  boundaryReplies : List ReturnCode
  trackerReturned : Bool
deriving DecidableEq

/-- From processMessage in persistencethread.cpp.  A reply message is routed
to the merge reply handlers and an exception there is only logged, as there is
no request left to respond to; no reply is produced.  A command is routed by
type, and an exception there is caught and converted into a reply with the
internal-failure code and the exception payload, sent through the same
filestor handler channel the trackers use; the tracker was consumed by the
throwing handler, so none is handed back. -/
def processMessage (isReply : Bool) (run : HandlerRun) : ProcessOut :=
  if isReply then
    { boundaryReplies := [], trackerReturned := true }
  else
    match run with
    | .completes t => { boundaryReplies := [], trackerReturned := t }
    | .throws w =>
      { boundaryReplies := [ReturnCode.internalFailure w], trackerReturned := false }

/-! ## Revert (claim C10) -/

/-- Outcome of handleRevert: the engine calls issued and the tracker result
code. -/
structure RevertOut where
  calls : List SpiCall
  result : ReturnCode
deriving DecidableEq

/-- From handleRevert in persistencethread.cpp: one engine removeEntry call is
issued per revert token and every engine result is discarded; the handler
never records a failure.  Modelled from the spec for the reply surface: the
message tracker, not under src, replies success when no failure was
recorded. -/
def handleRevert (bucket : BucketId) (tokens : List Nat)
    (results : Nat → Except Nat Unit) : RevertOut :=
  let calls := tokens.map (fun t => SpiCall.removeEntry bucket t)
  let _ := results
  { calls := calls, result := .ok }

/-! ## Theorems -/

/-- C1: for every DeleteBucket command where the engine bucket-info is
semantically unequal to the cached metadata and the engine reports the bucket
non-empty, the operation is refused, the index is left unchanged, and no
engine delete call is made. -/
theorem deleteBucket_refused_on_mismatch (env : DeleteEnv) (cmd : DeleteBucketCmd)
    (p : BucketInfo)
    (hp : env.providerInfo = .ok p)
    (hne : bucketStatesAreSemanticallyEqual cmd.info p = false)
    (hmt : p.emptyInfo = false) :
    (handleDeleteBucket env cmd).refused = true ∧
    (handleDeleteBucket env cmd).db = env.db ∧
    (handleDeleteBucket env cmd).calls = [SpiCall.getBucketInfo cmd.bucket] ∧
    SpiCall.deleteBucket cmd.bucket ∉ (handleDeleteBucket env cmd).calls := by
  simp [handleDeleteBucket, checkProviderBucketInfoMatches, hp, hne, hmt]

def deleteEnvW : DeleteEnv :=
  { db := fun _ => none, isMerging := false,
    providerInfo := .ok ⟨5, 2, 0, 2, false, false, 0⟩ }

def deleteCmdW : DeleteBucketCmd :=
  { bucket := ⟨8, 3⟩, info := ⟨1, 1, 0, 1, false, false, 0⟩ }

/-- Witness for C1 at a concrete mismatching command. -/
theorem deleteBucket_refused_on_mismatch_witness :
    deleteEnvW.providerInfo = .ok ⟨5, 2, 0, 2, false, false, 0⟩ ∧
    bucketStatesAreSemanticallyEqual deleteCmdW.info ⟨5, 2, 0, 2, false, false, 0⟩ = false ∧
    BucketInfo.emptyInfo ⟨5, 2, 0, 2, false, false, 0⟩ = false ∧
    ((handleDeleteBucket deleteEnvW deleteCmdW).refused = true ∧
     (handleDeleteBucket deleteEnvW deleteCmdW).db = deleteEnvW.db ∧
     (handleDeleteBucket deleteEnvW deleteCmdW).calls =
       [SpiCall.getBucketInfo deleteCmdW.bucket] ∧
     SpiCall.deleteBucket deleteCmdW.bucket ∉ (handleDeleteBucket deleteEnvW deleteCmdW).calls) :=
  ⟨rfl, by decide, by decide,
   deleteBucket_refused_on_mismatch deleteEnvW deleteCmdW _ rfl (by decide) (by decide)⟩

/-- C2: test-and-set semantics of the conditional mutations, with the command
carrying a precondition.  For put, remove and update alike: a missing document
proceeds exactly when the missing-implies-match flag is set (update passes the
create-if-non-existent flag of its payload, put and remove pass false) and
fails with precondition-failed otherwise; a present document on which the
selection is false fails with precondition-failed and issues no engine
mutation; a present matching document proceeds.  The call traces show the
test-and-set fetch strictly before the engine mutation. -/
theorem conditionalMutation_tas_semantics (b : BucketId) (ts : Nat) (cin : Bool)
    (putRes : Except Nat Unit) (remRes : Except Nat Bool) (updRes : Except Nat Nat) :
    (handleUpdate ⟨b, ts, true, true⟩ cin .notFound updRes).calls
        = SpiCall.tasFetch b :: (if cin then [SpiCall.update b ts] else []) ∧
    (handleUpdate ⟨b, ts, true, true⟩ cin .notFound updRes).result
        = (if cin then checkForErrorCode updRes else .testAndSetConditionFailed) ∧
    (handleUpdate ⟨b, ts, true, true⟩ cin (.found true) updRes).calls
        = [SpiCall.tasFetch b, SpiCall.update b ts] ∧
    (handleUpdate ⟨b, ts, true, true⟩ cin (.found false) updRes).calls
        = [SpiCall.tasFetch b] ∧
    (handleUpdate ⟨b, ts, true, true⟩ cin (.found false) updRes).result
        = .testAndSetConditionFailed ∧
    (handlePut ⟨b, ts, true, true⟩ .notFound putRes).calls = [SpiCall.tasFetch b] ∧
    (handlePut ⟨b, ts, true, true⟩ .notFound putRes).result = .testAndSetConditionFailed ∧
    (handlePut ⟨b, ts, true, true⟩ (.found true) putRes).calls
        = [SpiCall.tasFetch b, SpiCall.put b ts] ∧
    (handlePut ⟨b, ts, true, true⟩ (.found false) putRes).calls = [SpiCall.tasFetch b] ∧
    (handlePut ⟨b, ts, true, true⟩ (.found false) putRes).result
        = .testAndSetConditionFailed ∧
    (handleRemove ⟨b, ts, true, true⟩ .notFound remRes).calls = [SpiCall.tasFetch b] ∧
    (handleRemove ⟨b, ts, true, true⟩ .notFound remRes).result = .testAndSetConditionFailed ∧
    (handleRemove ⟨b, ts, true, true⟩ (.found true) remRes).calls
        = [SpiCall.tasFetch b, SpiCall.removeIfFound b ts] ∧
    (handleRemove ⟨b, ts, true, true⟩ (.found false) remRes).calls = [SpiCall.tasFetch b] ∧
    (handleRemove ⟨b, ts, true, true⟩ (.found false) remRes).result
        = .testAndSetConditionFailed := by
  cases cin <;> cases putRes <;> cases remRes <;> cases updRes <;>
    simp [handlePut, handleRemove, handleUpdate, putCore, removeCore, updateCore,
          tasConditionMatches, retrieveAndMatch, checkForErrorCode]

def createEnvC7 : CreateEnv :=
  { isMerging := false, createResult := .ok (), activateResult := .error 3 }

def createCmdC7 : CreateBucketCmd :=
  { bucket := ⟨4, 9⟩, active := true }

/-- C7 counterexample: a CreateBucket where the engine create succeeded but
the activation call failed; the handler still records a success result and
issues no failure, so the partial failure is never surfaced in the reply,
contradicting the claim. -/
theorem createBucket_failure_not_surfaced_counterexample :
    createEnvC7.createResult = .ok () ∧
    createEnvC7.activateResult = .error 3 ∧
    (handleCreateBucket createEnvC7 createCmdC7).result = .ok ∧
    (handleCreateBucket createEnvC7 createCmdC7).calls =
      [SpiCall.createBucket ⟨4, 9⟩, SpiCall.setActiveState ⟨4, 9⟩ true] := by
  exact ⟨rfl, rfl, rfl, rfl⟩

/-- C7 amended: the engine create call is always issued and an activation call
is issued if and only if the command marks the bucket active; neither call is
rolled back (no delete or deactivation call exists), but the results of both
engine calls are discarded, so the handler result is success regardless of
either call failing and no error is surfaced in the reply. -/
theorem createBucket_calls_and_result (env : CreateEnv) (cmd : CreateBucketCmd) :
    (handleCreateBucket env cmd).calls =
      SpiCall.createBucket cmd.bucket ::
        (if cmd.active then [SpiCall.setActiveState cmd.bucket true] else []) ∧
    (handleCreateBucket env cmd).result = ReturnCode.ok ∧
    (SpiCall.setActiveState cmd.bucket true ∈ (handleCreateBucket env cmd).calls
        ↔ cmd.active = true) ∧
    SpiCall.deleteBucket cmd.bucket ∉ (handleCreateBucket env cmd).calls ∧
    SpiCall.setActiveState cmd.bucket false ∉ (handleCreateBucket env cmd).calls := by
  cases hc : cmd.active <;> simp [handleCreateBucket, hc]

/-- C8: recheck overwrites the entry and emits a notification exactly when the
entry exists and the fresh engine info differs from the cached value; a
missing entry is a no-op and not an error; and rechecking again with the same
engine info produces no notification and no index write, so recheck is
idempotent. -/
theorem recheck_overwrite_and_idempotent (env : RecheckEnv) (b : BucketId) :
    (handleRecheckBucketInfo env b).result = ReturnCode.ok ∧
    (handleRecheckBucketInfo env b).wrote =
      (match env.db b with
       | some e => decide (e.info ≠ env.freshInfo)
       | none => false) ∧
    (handleRecheckBucketInfo env b).notifications =
      (match env.db b with
       | some e => if e.info = env.freshInfo then [] else [(b, env.freshInfo)]
       | none => []) ∧
    (match env.db b with
     | some e => (handleRecheckBucketInfo env b).db b = some { e with info := env.freshInfo }
     | none => (handleRecheckBucketInfo env b).db = env.db) ∧
    (handleRecheckBucketInfo ⟨(handleRecheckBucketInfo env b).db, env.freshInfo⟩ b).wrote
      = false ∧
    (handleRecheckBucketInfo ⟨(handleRecheckBucketInfo env b).db, env.freshInfo⟩ b).notifications
      = [] ∧
    (handleRecheckBucketInfo ⟨(handleRecheckBucketInfo env b).db, env.freshInfo⟩ b).db
      = (handleRecheckBucketInfo env b).db := by
  rcases h : env.db b with _ | e
  · simp [handleRecheckBucketInfo, h]
  · by_cases he : e.info = env.freshInfo
    · cases e
      simp_all [handleRecheckBucketInfo, h]
    · simp [handleRecheckBucketInfo, h, he, dbWrite]

/-- C9: an exception raised while handling a command is caught at the dispatch
boundary and converted into a failure reply with the internal-failure code and
the exception payload, sent through the filestor reply channel; an exception
raised while handling a reply is swallowed and no reply is produced. -/
theorem dispatch_exception_boundary (w : Nat) :
    processMessage false (.throws w) =
      { boundaryReplies := [ReturnCode.internalFailure w], trackerReturned := false } ∧
    processMessage true (.throws w) =
      { boundaryReplies := [], trackerReturned := true } :=
  ⟨rfl, rfl⟩

/-- C10: handleRevert issues one engine removeEntry call per revert token and
discards every result, so the handler records success no matter what any of
the engine calls returned. -/
theorem revert_discards_engine_errors (bucket : BucketId) (tokens : List Nat)
    (results : Nat → Except Nat Unit) :
    (handleRevert bucket tokens results).result = ReturnCode.ok ∧
    (handleRevert bucket tokens results).calls =
      tokens.map (fun t => SpiCall.removeEntry bucket t) :=
  ⟨rfl, rfl⟩

theorem bucketIdLess_irrefl (x : BucketId) : bucketIdLess x x = false := by
  simp [bucketIdLess]

theorem max_zero_left (x : Nat) : Nat.max 0 x = x := Nat.max_eq_right (Nat.zero_le x)

theorem max_zero_right (x : Nat) : Nat.max x 0 = x := Nat.max_eq_left (Nat.zero_le x)

theorem max_fold_left (x y : Nat) : Nat.max (Nat.max (Nat.max 0 x) y) 0 = Nat.max x y := by
  rw [max_zero_left, max_zero_right]

theorem max_comm_nat (x y : Nat) : Nat.max x y = Nat.max y x := Nat.max_comm x y

theorem max_self_nat (x : Nat) : Nat.max x x = x := Nat.max_self x

theorem max_fold_right (x y : Nat) : Nat.max (Nat.max (Nat.max 0 y) x) 0 = Nat.max x y := by
  rw [max_zero_left, max_zero_right, max_comm_nat]

theorem max_fold_self (x : Nat) : Nat.max (Nat.max 0 x) 0 = Nat.max x x := by
  rw [max_zero_left, max_zero_right, max_self_nat]

def joinEnvC3 : JoinEnv :=
  { db := fun _ => none, partition := 7, lockDisk := fun _ => 1, joinResult := .error 5 }

def joinCmdC3 : JoinCmd :=
  { bucket := ⟨1, 0⟩, sourceBuckets := [⟨2, 0⟩, ⟨2, 2⟩] }

/-- C3 counterexample: a valid JoinBuckets command whose engine join call
fails, issued against a database with no entry for the destination: after the
handler returns, the destination has a fresh index entry, so the index was
mutated even though the engine join returned an error. -/
theorem joinBuckets_error_mutates_index_counterexample :
    validateJoinCommand joinCmdC3 = true ∧
    joinEnvC3.joinResult = .error 5 ∧
    joinEnvC3.db ⟨1, 0⟩ = none ∧
    (handleJoinBuckets joinEnvC3 joinCmdC3).result = ReturnCode.engineError 5 ∧
    (handleJoinBuckets joinEnvC3 joinCmdC3).db ⟨1, 0⟩ =
      some { info := BucketInfo.zero, disk := 7 } := by
  refine ⟨by decide, rfl, rfl, ?_, ?_⟩ <;> decide

/-- C3 amended: when the engine join call returns an error, the operation
aborts with that error and no further index mutation: the source entries are
unchanged and no queue remap happens; however, the destination entry has
already been created-or-refreshed with its disk set to the partition before
the engine call, and that write is not undone. -/
theorem joinBuckets_error_aborts (env : JoinEnv) (cmd : JoinCmd) (c : Nat)
    (hv : validateJoinCommand cmd = true)
    (he : env.joinResult = .error c) :
    (handleJoinBuckets env cmd).result = ReturnCode.engineError c ∧
    (handleJoinBuckets env cmd).db cmd.bucket =
      some { info := (match env.db cmd.bucket with
                      | some e => e.info
                      | none => BucketInfo.zero),
             disk := env.partition } ∧
    (∀ x, x ≠ cmd.bucket → (handleJoinBuckets env cmd).db x = env.db x) ∧
    (handleJoinBuckets env cmd).remaps = [] := by
  obtain ⟨dest, srcs⟩ := cmd
  rcases srcs with _ | ⟨a, _ | ⟨b, _ | ⟨x, rest⟩⟩⟩
  · simp [validateJoinCommand] at hv
  · simp [validateJoinCommand] at hv
  · refine ⟨?_, ?_, ?_, ?_⟩
    · simp [handleJoinBuckets, hv, he]
    · simp [handleJoinBuckets, hv, he, dbWrite]
    · intro x hx
      simp only at hx
      simp [handleJoinBuckets, hv, he, dbWrite, hx]
    · simp [handleJoinBuckets, hv, he]
  · simp [validateJoinCommand] at hv

/-- Witness for the amended C3 at the concrete failing join. -/
theorem joinBuckets_error_aborts_witness :
    validateJoinCommand joinCmdC3 = true ∧
    joinEnvC3.joinResult = .error 5 ∧
    ((handleJoinBuckets joinEnvC3 joinCmdC3).result = ReturnCode.engineError 5 ∧
     (handleJoinBuckets joinEnvC3 joinCmdC3).db joinCmdC3.bucket =
       some { info := (match joinEnvC3.db joinCmdC3.bucket with
                       | some e => e.info
                       | none => BucketInfo.zero),
              disk := joinEnvC3.partition } ∧
     (∀ x, x ≠ joinCmdC3.bucket →
        (handleJoinBuckets joinEnvC3 joinCmdC3).db x = joinEnvC3.db x) ∧
     (handleJoinBuckets joinEnvC3 joinCmdC3).remaps = []) :=
  ⟨by decide, rfl, joinBuckets_error_aborts joinEnvC3 joinCmdC3 5 (by decide) rfl⟩

def joinEnvC6 : JoinEnv :=
  { db := fun bId =>
      if bId = ⟨2, 0⟩ then some { info := { BucketInfo.zero with lastModified := 5 }, disk := 0 }
      else if bId = ⟨2, 2⟩ then
        some { info := { BucketInfo.zero with lastModified := 9 }, disk := 0 }
      else none,
    partition := 3, lockDisk := fun _ => 0, joinResult := .ok () }

def joinCmdC6 : JoinCmd :=
  { bucket := ⟨1, 0⟩, sourceBuckets := [⟨2, 0⟩, ⟨2, 2⟩] }

/-- C6: after a successful join of two sources into a destination that
previously had no index entry, the destination entry carries the maximum of
the two prior source last-modified timestamps, and neither source retains an
index entry. -/
theorem joinBuckets_lastModified (env : JoinEnv) (cmd : JoinCmd)
    (s1 s2 : BucketId) (e1 e2 : Entry)
    (hs : cmd.sourceBuckets = [s1, s2])
    (hv : validateJoinCommand cmd = true)
    (hok : env.joinResult = .ok ())
    (h1 : env.db s1 = some e1) (h2 : env.db s2 = some e2)
    (hd : env.db cmd.bucket = none)
    (hn1 : s1 ≠ cmd.bucket) (hn2 : s2 ≠ cmd.bucket) :
    (handleJoinBuckets env cmd).result = ReturnCode.ok ∧
    (handleJoinBuckets env cmd).db s1 = none ∧
    (handleJoinBuckets env cmd).db s2 = none ∧
    (handleJoinBuckets env cmd).db cmd.bucket =
      some { info := { BucketInfo.zero with
                       lastModified := Nat.max e1.info.lastModified e2.info.lastModified },
             disk := env.partition } := by
  obtain ⟨dest, srcs⟩ := cmd
  simp only at hs hd hn1 hn2 ⊢
  subst hs
  by_cases hss : s1 = s2
  · subst hss
    rw [h1] at h2
    injection h2 with h2
    subst h2
    have hL : bucketIdLess s1 s1 = false := bucketIdLess_irrefl s1
    refine ⟨?_, ?_, ?_, ?_⟩ <;>
      simp [handleJoinBuckets, hv, hok, hL, dbWrite, dbRemove, hn1, Ne.symm hn1,
            hd, h1, BucketInfo.zero, max_fold_self, max_self_nat]
  · by_cases hL : bucketIdLess s2 s1 = true
    · refine ⟨?_, ?_, ?_, ?_⟩ <;>
        simp [handleJoinBuckets, hv, hok, hL, dbWrite, dbRemove, hn1, hn2,
              Ne.symm hn1, Ne.symm hn2, hss, Ne.symm hss, hd, h1, h2,
              BucketInfo.zero, max_fold_right, max_zero_left, max_zero_right,
              max_comm_nat]
    · refine ⟨?_, ?_, ?_, ?_⟩ <;>
        simp [handleJoinBuckets, hv, hok, hL, dbWrite, dbRemove, hn1, hn2,
              Ne.symm hn1, Ne.symm hn2, hss, Ne.symm hss, hd, h1, h2,
              BucketInfo.zero, max_fold_left]

/-- Witness for C6 at a concrete join of two sources with timestamps 5 and 9
into a previously absent destination. -/
theorem joinBuckets_lastModified_witness :
    joinCmdC6.sourceBuckets = [⟨2, 0⟩, ⟨2, 2⟩] ∧
    validateJoinCommand joinCmdC6 = true ∧
    joinEnvC6.joinResult = .ok () ∧
    joinEnvC6.db ⟨2, 0⟩ = some { info := { BucketInfo.zero with lastModified := 5 }, disk := 0 } ∧
    joinEnvC6.db ⟨2, 2⟩ = some { info := { BucketInfo.zero with lastModified := 9 }, disk := 0 } ∧
    joinEnvC6.db joinCmdC6.bucket = none ∧
    ((handleJoinBuckets joinEnvC6 joinCmdC6).result = ReturnCode.ok ∧
     (handleJoinBuckets joinEnvC6 joinCmdC6).db ⟨2, 0⟩ = none ∧
     (handleJoinBuckets joinEnvC6 joinCmdC6).db ⟨2, 2⟩ = none ∧
     (handleJoinBuckets joinEnvC6 joinCmdC6).db joinCmdC6.bucket =
       some { info := { BucketInfo.zero with lastModified := Nat.max 5 9 },
              disk := joinEnvC6.partition }) :=
  ⟨rfl, by decide, rfl, by decide, by decide, by decide,
   joinBuckets_lastModified joinEnvC6 joinCmdC6 ⟨2, 0⟩ ⟨2, 2⟩
     ⟨{ BucketInfo.zero with lastModified := 5 }, 0⟩
     ⟨{ BucketInfo.zero with lastModified := 9 }, 0⟩
     rfl (by decide) rfl (by decide) (by decide) (by decide) (by decide) (by decide)⟩

theorem splitFinishTarget_db_ne (oc fq : Bool) (t : BucketId) (e : Entry)
    (acc : SplitAcc) (x : BucketId) (h : x ≠ t) :
    (splitFinishTarget oc fq t e acc).db x = acc.db x := by
  by_cases hm : e.info.metaCount = 0
  · cases fq <;>
      simp [splitFinishTarget, hm, dbWrite_ne _ _ _ _ h, dbRemove_ne _ _ _ h]
  · have hp : 0 < e.info.metaCount := Nat.pos_of_ne_zero hm
    cases fq <;>
      simp [splitFinishTarget, hm, hp, dbWrite_ne _ _ _ _ h, dbRemove_ne _ _ _ h]

theorem splitFinishTarget_db_self (oc fq : Bool) (t : BucketId) (e : Entry)
    (acc : SplitAcc) :
    (splitFinishTarget oc fq t e acc).db t =
      (if fq || decide (0 < e.info.metaCount) then
         some (if e.info.metaCount = 0 then { e with info := { e.info with metaCount := 1 } }
               else e)
       else none) := by
  by_cases hm : e.info.metaCount = 0
  · cases fq <;> simp [splitFinishTarget, hm, dbWrite_self, dbRemove_self]
  · have hp : 0 < e.info.metaCount := Nat.pos_of_ne_zero hm
    cases fq <;> simp [splitFinishTarget, hm, hp, dbWrite_self]

theorem splitFinishTarget_calls (oc fq : Bool) (t : BucketId) (e : Entry)
    (acc : SplitAcc) :
    (splitFinishTarget oc fq t e acc).calls =
      acc.calls ++
        (if fq = true ∧ e.info.metaCount = 0 then [SpiCall.createBucket t] else []) := by
  by_cases hm : e.info.metaCount = 0
  · cases fq <;> simp [splitFinishTarget, hm]
  · have hp : 0 < e.info.metaCount := Nat.pos_of_ne_zero hm
    cases fq <;> simp [splitFinishTarget, hm, hp]

theorem splitFinishTarget_notifications (oc fq : Bool) (t : BucketId) (e : Entry)
    (acc : SplitAcc) :
    (splitFinishTarget oc fq t e acc).notifications =
      acc.notifications ++ (if oc = true then [(t, e.info)] else []) := by
  by_cases hm : e.info.metaCount = 0
  · cases fq <;> cases oc <;> simp [splitFinishTarget, hm]
  · have hp : 0 < e.info.metaCount := Nat.pos_of_ne_zero hm
    cases fq <;> cases oc <;> simp [splitFinishTarget, hm, hp]

theorem handleSplitBucket_success (env : SplitEnv) (cmd : SplitCmd) (t1 t2 : BucketId)
    (hb : cmd.bucket.usedBits < 58)
    (hm : cmd.bucket.usedBits < cmd.maxSplitBits)
    (ht : splitTargets env cmd = .ok (t1, t2))
    (hok : env.splitResult = .ok ()) :
    handleSplitBucket env cmd =
      (let d1 := env.lockDisk t1
       let d2 := env.lockDisk t2
       let e1 : Entry := { info := env.getBucketInfo t1 d1, disk := d1 }
       let e2 : Entry := { info := env.getBucketInfo t2 d2, disk := d2 }
       let oc := !env.distributorOwns cmd.sourceIndex cmd.bucket
       let acc0 : SplitAcc :=
         { db := env.db, calls := [SpiCall.split cmd.bucket t1 t2],
           notifications := [], splitInfo := [] }
       let acc1 := splitFinishTarget oc (env.foundInQueue t1) t1 e1 acc0
       let acc2 := splitFinishTarget oc (env.foundInQueue t2) t2 e2 acc1
       let final :=
         match env.db cmd.bucket with
         | some se =>
           { acc2 with
             db := dbRemove acc2.db cmd.bucket,
             notifications :=
               if oc then acc2.notifications ++ [(cmd.bucket, se.info)]
               else acc2.notifications }
         | none => acc2
       { db := final.db, calls := final.calls, notifications := final.notifications,
         splitInfo := final.splitInfo, result := .ok }) := by
  have hb2 : ¬ 58 ≤ cmd.bucket.usedBits := Nat.not_le.mpr hb
  have hm2 : ¬ cmd.maxSplitBits ≤ cmd.bucket.usedBits := Nat.not_le.mpr hm
  unfold handleSplitBucket
  rw [if_neg hb2, if_neg hm2, ht, hok]

/-- C4: after a successful engine split, each target entry ends up exactly as
follows: a target with pending remapped queue operations or a positive fresh
meta count is written, where a zero fresh meta count is forced to the sentinel
value one; a target with zero fresh meta count and no pending work has its
entry removed; and an engine re-create call is issued for a target exactly
when it had pending work and a zero fresh meta count. -/
theorem splitBucket_empty_targets (env : SplitEnv) (cmd : SplitCmd) (t1 t2 : BucketId)
    (hb : cmd.bucket.usedBits < 58)
    (hmx : cmd.bucket.usedBits < cmd.maxSplitBits)
    (ht : splitTargets env cmd = .ok (t1, t2))
    (hok : env.splitResult = .ok ())
    (h12 : t1 ≠ t2) (h1s : t1 ≠ cmd.bucket) (h2s : t2 ≠ cmd.bucket) :
    (handleSplitBucket env cmd).result = ReturnCode.ok ∧
    (handleSplitBucket env cmd).db t1 =
      (if env.foundInQueue t1
            || decide (0 < (env.getBucketInfo t1 (env.lockDisk t1)).metaCount) then
         some (if (env.getBucketInfo t1 (env.lockDisk t1)).metaCount = 0 then
                 { info := { env.getBucketInfo t1 (env.lockDisk t1) with metaCount := 1 },
                   disk := env.lockDisk t1 }
               else { info := env.getBucketInfo t1 (env.lockDisk t1),
                      disk := env.lockDisk t1 })
       else none) ∧
    (handleSplitBucket env cmd).db t2 =
      (if env.foundInQueue t2
            || decide (0 < (env.getBucketInfo t2 (env.lockDisk t2)).metaCount) then
         some (if (env.getBucketInfo t2 (env.lockDisk t2)).metaCount = 0 then
                 { info := { env.getBucketInfo t2 (env.lockDisk t2) with metaCount := 1 },
                   disk := env.lockDisk t2 }
               else { info := env.getBucketInfo t2 (env.lockDisk t2),
                      disk := env.lockDisk t2 })
       else none) ∧
    (handleSplitBucket env cmd).calls =
      [SpiCall.split cmd.bucket t1 t2] ++
        (if env.foundInQueue t1 = true
              ∧ (env.getBucketInfo t1 (env.lockDisk t1)).metaCount = 0
         then [SpiCall.createBucket t1] else []) ++
        (if env.foundInQueue t2 = true
              ∧ (env.getBucketInfo t2 (env.lockDisk t2)).metaCount = 0
         then [SpiCall.createBucket t2] else []) := by
  rw [handleSplitBucket_success env cmd t1 t2 hb hmx ht hok]
  rcases hsrc : env.db cmd.bucket with _ | se <;>
    simp [hsrc, splitFinishTarget_db_ne, splitFinishTarget_db_self,
          splitFinishTarget_calls, dbRemove_ne, h12, h1s, h2s, Ne.symm h12]

def splitEnvC4 : SplitEnv :=
  { db := fun _ => none, partition := 0, enableMultibitSplitOptimalization := false,
    detectSplit := .empty, lockDisk := fun _ => 2, splitResult := .ok (),
    getBucketInfo := fun _ _ => BucketInfo.zero,
    foundInQueue := fun b => decide (b.rawId = 1),
    distributorOwns := fun _ _ => true }

def splitCmdC4 : SplitCmd :=
  { bucket := ⟨1, 1⟩, maxSplitBits := 2, sourceIndex := 0 }

/-- Witness for C4 at a concrete split where both targets come back empty from
the engine, the first with remapped queued operations pending and the second
without. -/
theorem splitBucket_empty_targets_witness :
    splitCmdC4.bucket.usedBits < 58 ∧
    splitCmdC4.bucket.usedBits < splitCmdC4.maxSplitBits ∧
    splitTargets splitEnvC4 splitCmdC4 = .ok (⟨2, 1⟩, ⟨2, 3⟩) ∧
    splitEnvC4.splitResult = .ok () ∧
    (⟨2, 1⟩ : BucketId) ≠ ⟨2, 3⟩ ∧
    (⟨2, 1⟩ : BucketId) ≠ splitCmdC4.bucket ∧
    (⟨2, 3⟩ : BucketId) ≠ splitCmdC4.bucket ∧
    ((handleSplitBucket splitEnvC4 splitCmdC4).result = ReturnCode.ok ∧
     (handleSplitBucket splitEnvC4 splitCmdC4).db ⟨2, 1⟩ =
       (if splitEnvC4.foundInQueue ⟨2, 1⟩
             || decide (0 < (splitEnvC4.getBucketInfo ⟨2, 1⟩ (splitEnvC4.lockDisk ⟨2, 1⟩)).metaCount) then
          some (if (splitEnvC4.getBucketInfo ⟨2, 1⟩ (splitEnvC4.lockDisk ⟨2, 1⟩)).metaCount = 0 then
                  { info := { splitEnvC4.getBucketInfo ⟨2, 1⟩ (splitEnvC4.lockDisk ⟨2, 1⟩) with
                              metaCount := 1 },
                    disk := splitEnvC4.lockDisk ⟨2, 1⟩ }
                else { info := splitEnvC4.getBucketInfo ⟨2, 1⟩ (splitEnvC4.lockDisk ⟨2, 1⟩),
                       disk := splitEnvC4.lockDisk ⟨2, 1⟩ })
        else none) ∧
     (handleSplitBucket splitEnvC4 splitCmdC4).db ⟨2, 3⟩ =
       (if splitEnvC4.foundInQueue ⟨2, 3⟩
             || decide (0 < (splitEnvC4.getBucketInfo ⟨2, 3⟩ (splitEnvC4.lockDisk ⟨2, 3⟩)).metaCount) then
          some (if (splitEnvC4.getBucketInfo ⟨2, 3⟩ (splitEnvC4.lockDisk ⟨2, 3⟩)).metaCount = 0 then
                  { info := { splitEnvC4.getBucketInfo ⟨2, 3⟩ (splitEnvC4.lockDisk ⟨2, 3⟩) with
                              metaCount := 1 },
                    disk := splitEnvC4.lockDisk ⟨2, 3⟩ }
                else { info := splitEnvC4.getBucketInfo ⟨2, 3⟩ (splitEnvC4.lockDisk ⟨2, 3⟩),
                       disk := splitEnvC4.lockDisk ⟨2, 3⟩ })
        else none) ∧
     (handleSplitBucket splitEnvC4 splitCmdC4).calls =
       [SpiCall.split splitCmdC4.bucket ⟨2, 1⟩ ⟨2, 3⟩] ++
         (if splitEnvC4.foundInQueue ⟨2, 1⟩ = true
               ∧ (splitEnvC4.getBucketInfo ⟨2, 1⟩ (splitEnvC4.lockDisk ⟨2, 1⟩)).metaCount = 0
          then [SpiCall.createBucket ⟨2, 1⟩] else []) ++
         (if splitEnvC4.foundInQueue ⟨2, 3⟩ = true
               ∧ (splitEnvC4.getBucketInfo ⟨2, 3⟩ (splitEnvC4.lockDisk ⟨2, 3⟩)).metaCount = 0
          then [SpiCall.createBucket ⟨2, 3⟩] else [])) :=
  ⟨by decide, by decide, rfl, rfl, by decide, by decide, by decide,
   splitBucket_empty_targets splitEnvC4 splitCmdC4 ⟨2, 1⟩ ⟨2, 3⟩
     (by decide) (by decide) rfl rfl (by decide) (by decide) (by decide)⟩

def splitEnvC5 : SplitEnv :=
  { db := fun _ => none, partition := 0, enableMultibitSplitOptimalization := false,
    detectSplit := .empty, lockDisk := fun _ => 0, splitResult := .ok (),
    getBucketInfo := fun _ _ => BucketInfo.zero, foundInQueue := fun _ => true,
    distributorOwns := fun _ b => decide (b.usedBits = 1) }

def splitCmdC5 : SplitCmd :=
  { bucket := ⟨1, 1⟩, maxSplitBits := 2, sourceIndex := 0 }

/-- C5 counterexample: a successful split where the issuing distributor still
owns the source bucket but does not own the first target; the claim requires
an ownership-change notification for that target, yet the handler emits no
notification at all, because the only ownership determination it makes is for
the source bucket. -/
theorem splitBucket_per_target_ownership_counterexample :
    (handleSplitBucket splitEnvC5 splitCmdC5).result = ReturnCode.ok ∧
    splitTargets splitEnvC5 splitCmdC5 = .ok (⟨2, 1⟩, ⟨2, 3⟩) ∧
    splitEnvC5.distributorOwns splitCmdC5.sourceIndex ⟨2, 1⟩ = false ∧
    (handleSplitBucket splitEnvC5 splitCmdC5).notifications = [] := by
  refine ⟨by decide, rfl, by decide, by decide⟩

/-- C5 amended: after a successful engine split a single ownership
determination is made, for the source bucket against the distributor that
issued the split; when that distributor no longer owns the source bucket, a
notification carrying each target's freshly queried metadata is emitted for
both targets, followed by one for the source when its entry exists; when the
distributor still owns the source bucket, no notification is emitted at all,
regardless of any per-target ownership. -/
theorem splitBucket_notifications_source_check (env : SplitEnv) (cmd : SplitCmd)
    (t1 t2 : BucketId)
    (hb : cmd.bucket.usedBits < 58)
    (hmx : cmd.bucket.usedBits < cmd.maxSplitBits)
    (ht : splitTargets env cmd = .ok (t1, t2))
    (hok : env.splitResult = .ok ()) :
    (handleSplitBucket env cmd).notifications =
      (if env.distributorOwns cmd.sourceIndex cmd.bucket then []
       else
         [(t1, env.getBucketInfo t1 (env.lockDisk t1)),
          (t2, env.getBucketInfo t2 (env.lockDisk t2))] ++
           (match env.db cmd.bucket with
            | some se => [(cmd.bucket, se.info)]
            | none => [])) := by
  rw [handleSplitBucket_success env cmd t1 t2 hb hmx ht hok]
  rcases hsrc : env.db cmd.bucket with _ | se <;>
    cases ho : env.distributorOwns cmd.sourceIndex cmd.bucket <;>
      simp [hsrc, ho, splitFinishTarget_notifications]

def splitEnvC5w : SplitEnv :=
  { db := fun bId =>
      if bId = ⟨1, 1⟩ then some { info := { BucketInfo.zero with docCount := 4 }, disk := 0 }
      else none,
    partition := 0, enableMultibitSplitOptimalization := false,
    detectSplit := .empty, lockDisk := fun _ => 0, splitResult := .ok (),
    getBucketInfo := fun _ _ => { BucketInfo.zero with docCount := 2, metaCount := 2 },
    foundInQueue := fun _ => false,
    distributorOwns := fun _ _ => false }

def splitCmdC5w : SplitCmd :=
  { bucket := ⟨1, 1⟩, maxSplitBits := 2, sourceIndex := 0 }

/-- Witness for the amended C5 at a concrete split whose source bucket is no
longer owned by the issuing distributor. -/
theorem splitBucket_notifications_source_check_witness :
    splitCmdC5w.bucket.usedBits < 58 ∧
    splitCmdC5w.bucket.usedBits < splitCmdC5w.maxSplitBits ∧
    splitTargets splitEnvC5w splitCmdC5w = .ok (⟨2, 1⟩, ⟨2, 3⟩) ∧
    splitEnvC5w.splitResult = .ok () ∧
    (handleSplitBucket splitEnvC5w splitCmdC5w).notifications =
      (if splitEnvC5w.distributorOwns splitCmdC5w.sourceIndex splitCmdC5w.bucket then []
       else
         [(⟨2, 1⟩, splitEnvC5w.getBucketInfo ⟨2, 1⟩ (splitEnvC5w.lockDisk ⟨2, 1⟩)),
          (⟨2, 3⟩, splitEnvC5w.getBucketInfo ⟨2, 3⟩ (splitEnvC5w.lockDisk ⟨2, 3⟩))] ++
           (match splitEnvC5w.db splitCmdC5w.bucket with
            | some se => [(splitCmdC5w.bucket, se.info)]
            | none => [])) :=
  ⟨by decide, by decide, rfl, rfl,
   splitBucket_notifications_source_check splitEnvC5w splitCmdC5w ⟨2, 1⟩ ⟨2, 3⟩
     (by decide) (by decide) rfl rfl⟩

end VespaPersistence
